import Mathlib

/-!
Verification of the CodeGeneration-Frontend banking client.

Shallow embedding of the parts of the codebase the claims are about:
  - the Pinia auth store (src/stores/auth.store.ts): session state,
    isLoggedIn, setSession, localStorage persistence, refreshToken;
  - the axios response interceptor with the token-refresh queue
    (src/unnamed/part_003): isRefreshing flag, refreshSubscribers,
    onTokenRefreshed, onRefreshError, the 401 handler;
  - the transfer modal validation (TransferModal.vue): validateAmount,
    isFormValid, validateToAccount, and the preview-fetch watcher;
  - the currency service cache (CurrencyService.ts).

JavaScript numbers are modelled as exact rationals, epoch timestamps as
integers, JS falsiness of nullable strings and numbers explicitly.
-/

/-! ## Auth store (src/stores/auth.store.ts) -/

/-- JS truthiness of a nullable string: null and the empty string are falsy. -/
def truthyStr : Option String → Bool
  | none => false
  | some s => s ≠ ""

/-- JS truthiness of a nullable number: null and 0 are falsy. -/
def truthyNum : Option Int → Bool
  | none => false
  | some n => n ≠ 0

/-- The user payload is opaque for the claims at stake; it is carried as a string. -/
abbrev UserData := String

/-- In-memory state of the auth store (interface AuthState, lines 6-12,
field refreshToken is called refreshTok here to leave the action name free). -/
structure AuthState where
  token : Option String
  refreshTok : Option String
  user : Option UserData
  expiresAt : Option Int
  isAuthenticated : Bool
deriving DecidableEq, Repr

/-- The four localStorage keys the store touches: token, refresh_token,
user (a JSON string) and token_expires_at (a decimal string, carried as
the integer it denotes). `none` is an absent key. -/
structure Storage where
  token : Option String
  refresh : Option String
  user : Option String
  expiresAt : Option Int
deriving DecidableEq, Repr

/-- Getter isLoggedIn (auth.store.ts lines 38-41):
`if (!this.token || !this.expiresAt) return false; return this.expiresAt > now`. -/
def isLoggedIn (s : AuthState) (now : Int) : Bool :=
  if ¬ truthyStr s.token ∨ ¬ truthyNum s.expiresAt then false
  else s.expiresAt.getD 0 > now

/-- Payload of a successful login response (parameter of setSession). -/
structure AuthResult where
  token : String
  refreshToken : String
  user : UserData
  expiresIn : Int
deriving DecidableEq, Repr

/-- JSON.stringify of the opaque user payload: carried through unchanged. -/
def stringifyUser (u : UserData) : String := u

/-- Action setSession (auth.store.ts lines 53-67): computes
`expiresAt = now + expiresIn * 1000`, overwrites every state field and
writes the four localStorage keys. -/
def setSession (authResult : AuthResult) (now : Int) : AuthState × Storage :=
  let expiresAt := now + authResult.expiresIn * 1000
  ({ token := some authResult.token
     refreshTok := some authResult.refreshToken
     user := some authResult.user
     expiresAt := some expiresAt
     isAuthenticated := true },
   { token := some authResult.token
     refresh := some authResult.refreshToken
     user := some (stringifyUser authResult.user)
     expiresAt := some expiresAt })

/-- `localStorage.getItem(k) || null`: an absent key or an empty string both
come back as null. -/
def jsOrNull : Option String → Option String
  | none => none
  | some s => if s = "" then none else some s

/-- safeJsonParse (auth.store.ts lines 15-26): falsy input and the literal
strings null and undefined give null; otherwise the parsed payload. -/
def safeJsonParse : Option String → Option UserData
  | none => none
  | some s => if s = "" ∨ s = "null" ∨ s = "undefined" then none else some s

/-- The state initializer (auth.store.ts lines 29-35): rehydration of a fresh
store instance from localStorage. `expiresAt` is
`Number(getItem(..) || '0')`, hence never null after rehydration. -/
def rehydrate (st : Storage) : AuthState :=
  { token := jsOrNull st.token
    refreshTok := jsOrNull st.refresh
    user := safeJsonParse st.user
    expiresAt := some (st.expiresAt.getD 0)
    isAuthenticated := false }

/-- Outcome of a call to validateToken(), seen from refreshToken():
it either threw, or returned a user object or null. -/
inductive ValidateOutcome
  | threw
  | returned (user : Option UserData)
deriving DecidableEq, Repr

/-- Action refreshToken (auth.store.ts lines 137-149): false at once when the
stored refresh token is falsy, otherwise the double-negated result of
validateToken(), with every exception caught and turned into false. -/
def refreshTokenAction (s : AuthState) (v : ValidateOutcome) : Bool :=
  if ¬ truthyStr s.refreshTok then false
  else match v with
    | .threw => false
    | .returned u => u.isSome

/-! ## Transfer modal validation (src/components/modals/TransferModal.vue) -/

/-- The Account fields the transfer validation reads (models.d.ts), with JS
numbers as exact rationals. -/
structure Account where
  accountNumber : String
  accountName : String
  balance : ℚ
  currency : String
  singleTransferLimit : ℚ
  dailyTransferLimit : ℚ
  transferUsedToday : ℚ
deriving DecidableEq, Repr

/-- JS truthiness of the nullable numeric amount ref: null and 0 are falsy. -/
def truthyAmt : Option ℚ → Bool
  | none => false
  | some a => a ≠ 0

/-- The four messages validateAmount can surface, in source order. -/
inductive AmountError
  | mustBePositive
  | insufficientFunds
  | exceedsSingleLimit
  | exceedsDailyLimit
deriving DecidableEq, Repr

/-- validateAmount (TransferModal.vue lines 165-190): clears amountError,
returns at once when the amount or the source account is falsy, then checks
positivity, balance, single-transfer limit and daily limit in that order. -/
def validateAmount (fromAccount : Option Account) (amount : Option ℚ) :
    Option AmountError :=
  match amount, fromAccount with
  | some a, some acc =>
    if a = 0 then none
    else if a ≤ 0 then some .mustBePositive
    else if a > acc.balance then some .insufficientFunds
    else if a > acc.singleTransferLimit then some .exceedsSingleLimit
    else if acc.transferUsedToday + a > acc.dailyTransferLimit then
      some .exceedsDailyLimit
    else none
  | _, _ => none

/-- The truthiness-or-leading-check test on toAccountError inside isFormValid:
`!toAccountError.value || toAccountError.value[0] == '✓'`. -/
def toAccountErrorOk : Option String → Bool
  | none => true
  | some e => if e = "" then true else e.front = '✓'

/-- isFormValid (TransferModal.vue lines 46-53). -/
def isFormValid (fromAccount : Option Account) (toAccount : String)
    (amount : Option ℚ) (amountError : Option AmountError)
    (toAccountError : Option String) : Bool :=
  fromAccount.isSome && (toAccount ≠ "") && truthyAmt amount &&
    (amount.getD 0 > 0) && amountError.isNone && toAccountErrorOk toAccountError

/-- isOwnAccountTransfer (TransferModal.vue lines 70-77): the destination is
one of the available accounts and differs from the source account number. -/
def isOwnAccountTransfer (fromAccount : Option Account) (toAccount : String)
    (available : List Account) : Bool :=
  match fromAccount with
  | none => false
  | some f =>
    if toAccount = "" then false
    else (available.any (fun acc => acc.accountNumber = toAccount)) &&
      (toAccount ≠ f.accountNumber)

/-- Outcome of the GET account/details lookup issued by validateToAccount. -/
inductive LookupResult
  | ok
  | notFound
  | otherError
deriving DecidableEq, Repr

/-- The try block of validateToAccount (TransferModal.vue lines 234-256):
the network lookup of the destination followed by the own-account handling.
The second component records that the lookup was issued. -/
def lookupToAccount (fromAccount : Option Account) (toAccount : String)
    (available : List Account) (byEmployee : Bool) (lookup : LookupResult) :
    Option String × Bool :=
  match lookup with
  | .ok =>
    if isOwnAccountTransfer fromAccount toAccount available then
      if byEmployee then
        (some "Can't transfer to your own account", true)
      else
        match available.find? (fun acc => acc.accountNumber = toAccount) with
        | some target =>
          (some ("✓ Transfer to your " ++ target.accountName ++ " (" ++
            target.currency ++ ")"), true)
        | none => (none, true)
    else (none, true)
  | .notFound => (none, true)
  | .otherError => (none, true)

/-- validateToAccount (TransferModal.vue lines 222-257). Returns the value of
toAccountError together with a flag recording whether the network lookup of
the destination account was issued. -/
def validateToAccount (fromAccount : Option Account) (toAccount : String)
    (available : List Account) (byEmployee : Bool) (lookup : LookupResult) :
    Option String × Bool :=
  if toAccount = "" then (none, false)
  else
    match fromAccount with
    | some f =>
      if toAccount = f.accountNumber then
        (some "Cannot transfer to the same account", false)
      else lookupToAccount (some f) toAccount available byEmployee lookup
    | none => lookupToAccount none toAccount available byEmployee lookup

/-! ## Currency service cache (src/services/CurrencyService.ts) -/

/-- A cached exchange rate with the epoch-ms timestamp of its fetch. -/
structure CacheEntry where
  rate : ℚ
  timestamp : Int
deriving DecidableEq, Repr

/-- The exchangeRatesCache Map, as an association list keyed by the
string cache key; cacheSet replaces any previous binding of the key. -/
abbrev RateCache := List (String × CacheEntry)

/-- Map.get. -/
def cacheGet (c : RateCache) (k : String) : Option CacheEntry :=
  (c.find? (fun p => p.1 = k)).map (fun p => p.2)

/-- Map.set: the new binding shadows any previous one. -/
def cacheSet (c : RateCache) (k : String) (v : CacheEntry) : RateCache :=
  (k, v) :: c.filter (fun p => ¬ p.1 = k)

/-- CACHE_DURATION = 5 * 60 * 1000 ms. -/
def CACHE_DURATION : Int := 5 * 60 * 1000

/-- Outcome of the remote exchange-rate request, as seen by the service. -/
inductive FetchResult
  | ok (rate : ℚ)
  | err
deriving DecidableEq, Repr

/-- Result of a rate lookup: the returned rate, the cache afterwards, and
whether the network request was issued. -/
structure RateLookup where
  rate : ℚ
  cache : RateCache
  networkCalled : Bool
deriving DecidableEq, Repr

/-- Fallback table of getExchangeRateToEur (CurrencyService.ts lines 56-63). -/
def fallbackToEur (c : String) : ℚ :=
  if c = "USD" then 93/100
  else if c = "GBP" then 116/100
  else if c = "CHF" then 105/100
  else if c = "PLN" then 24/100
  else 1

/-- Fallback table of getExchangeRateFromEur (CurrencyService.ts, lines
143-150). -/
def fallbackFromEur (c : String) : ℚ :=
  if c = "USD" then 108/100
  else if c = "GBP" then 86/100
  else if c = "CHF" then 95/100
  else if c = "PLN" then 417/100
  else 1

/-- The shared fetch-and-cache tail of both rate getters: on success the rate
is cached under the key with the current timestamp; on error the fallback is
returned and the cache is untouched. The network call is always issued. -/
def fetchRate (cacheKey : String) (fallback : ℚ) (now : Int)
    (fetch : FetchResult) (cache : RateCache) : RateLookup :=
  match fetch with
  | .ok r => ⟨r, cacheSet cache cacheKey ⟨r, now⟩, true⟩
  | .err => ⟨fallback, cache, true⟩

/-- getExchangeRateToEur (CurrencyService.ts lines 19-65): 1.0 at once for
EUR; a cache hit strictly younger than CACHE_DURATION is returned without a
network call; otherwise the rate is fetched and cached. -/
def getExchangeRateToEur (fromCurrency : String) (now : Int)
    (fetch : FetchResult) (cache : RateCache) : RateLookup :=
  if fromCurrency = "EUR" then ⟨1, cache, false⟩
  else
    let cacheKey := fromCurrency ++ "_EUR"
    match cacheGet cache cacheKey with
    | some cached =>
      if now - cached.timestamp < CACHE_DURATION then ⟨cached.rate, cache, false⟩
      else fetchRate cacheKey (fallbackToEur fromCurrency) now fetch cache
    | none => fetchRate cacheKey (fallbackToEur fromCurrency) now fetch cache

/-- getExchangeRateFromEur (CurrencyService.ts lines 106-152), the mirror of
getExchangeRateToEur with the reversed cache key and the inverse fallbacks. -/
def getExchangeRateFromEur (toCurrency : String) (now : Int)
    (fetch : FetchResult) (cache : RateCache) : RateLookup :=
  if toCurrency = "EUR" then ⟨1, cache, false⟩
  else
    let cacheKey := "EUR_" ++ toCurrency
    match cacheGet cache cacheKey with
    | some cached =>
      if now - cached.timestamp < CACHE_DURATION then ⟨cached.rate, cache, false⟩
      else fetchRate cacheKey (fallbackFromEur toCurrency) now fetch cache
    | none => fetchRate cacheKey (fallbackFromEur toCurrency) now fetch cache

/-! ## Authenticated request gateway (src/unnamed/part_003) -/

/-- Module-level state of the interceptor file, together with an observation
log: deliveries records each invocation of a queued subscriber callback with
the token it received, resets counts the assignments of [] to
refreshSubscribers, refreshStarts counts the invocations of
authStore.refreshToken(), logouts the invocations of authStore.logout(). -/
structure GState where
  isRefreshing : Bool
  refreshSubscribers : List Nat
  refreshStarts : Nat
  deliveries : List (Nat × String)
  resets : Nat
  logouts : Nat
deriving DecidableEq, Repr

/-- Initial module state: flag down, empty queue (part_003 lines 6-8). -/
def initGState : GState :=
  { isRefreshing := false, refreshSubscribers := [], refreshStarts := 0
    deliveries := [], resets := 0, logouts := 0 }

/-- subscribeTokenRefresh (part_003 lines 11-13): push the waiter at the back. -/
def subscribeTokenRefresh (w : Nat) (s : GState) : GState :=
  { s with refreshSubscribers := s.refreshSubscribers ++ [w] }

/-- onTokenRefreshed (part_003 lines 16-19): invoke every queued callback with
the new token, in list order, then reset the queue to empty. -/
def onTokenRefreshed (newToken : String) (s : GState) : GState :=
  { s with
    deliveries := s.deliveries ++ s.refreshSubscribers.map (fun w => (w, newToken))
    refreshSubscribers := []
    resets := s.resets + 1 }

/-- onRefreshError (part_003 lines 22-26): invoke every queued callback with
the empty string, in list order, then reset the queue to empty. -/
def onRefreshError (s : GState) : GState :=
  { s with
    deliveries := s.deliveries ++ s.refreshSubscribers.map (fun w => (w, ""))
    refreshSubscribers := []
    resets := s.resets + 1 }

/-- What the synchronous part of the response-error interceptor does with one
failed request. -/
inductive HandlerResult
  | queued
  | startedRefresh
  | connectionError
  | rejectedOriginal
deriving DecidableEq, Repr

/-- The response-error interceptor (part_003 lines 59-125) up to its first
await: a 401 whose request is not yet marked retried either joins the queue
(when a refresh is in flight) or marks the request retried, raises
isRefreshing and invokes refreshToken(); anything else is rejected, with
response-less errors normalized to a connection error. -/
def handleError (s : GState) (reqId : Nat) (hasResponse : Bool) (status : Nat)
    (retried : Bool) : GState × HandlerResult :=
  if hasResponse && status = 401 && ¬ retried then
    if s.isRefreshing then (subscribeTokenRefresh reqId s, .queued)
    else
      ({ s with isRefreshing := true, refreshStarts := s.refreshStarts + 1 },
       .startedRefresh)
  else if ¬ hasResponse then (s, .connectionError)
  else (s, .rejectedOriginal)

/-- How the awaited authStore.refreshToken() call settles, as seen by the
interceptor: it returned true (with the current value of authStore.authToken),
returned false, or threw. -/
inductive RefreshOutcome
  | refreshedTrue (authToken : Option String)
  | refreshedFalse
  | threw
deriving DecidableEq, Repr

/-- What the interceptor then does with the original (refresh-initiating)
request. -/
inductive OriginalOutcome
  | replayedWithToken (token : String)
  | rejected
deriving DecidableEq, Repr

/-- The continuation of the interceptor after the awaited refresh settles
(part_003 lines 84-113). On success: the queue is drained with
`authToken || ''` by onTokenRefreshed, isRefreshing is cleared and the
original request is replayed. On a false return or a throw: isRefreshing is
cleared, the queue is drained with the empty string by onRefreshError,
logout() runs and the original request is rejected. -/
def settleRefresh (s : GState) (o : RefreshOutcome) : GState × OriginalOutcome :=
  match o with
  | .refreshedTrue authToken =>
    let newToken := authToken.getD ""
    let s1 := onTokenRefreshed newToken s
    ({ s1 with isRefreshing := false }, .replayedWithToken newToken)
  | .refreshedFalse =>
    let s1 := onRefreshError { s with isRefreshing := false }
    ({ s1 with logouts := s1.logouts + 1 }, .rejected)
  | .threw =>
    let s1 := onRefreshError { s with isRefreshing := false }
    ({ s1 with logouts := s1.logouts + 1 }, .rejected)

/-- The token every queued callback receives when the refresh settles with
outcome o: the new token (`authToken || ''`) on success, the empty string on
failure. -/
def settleToken : RefreshOutcome → String
  | .refreshedTrue authToken => authToken.getD ""
  | .refreshedFalse => ""
  | .threw => ""

/-- A burst of 401 responses handled while the refresh is in flight, in
arrival order. -/
def enqueueAll (s : GState) (reqs : List Nat) : GState :=
  reqs.foldl (fun st r => (handleError st r true 401 false).1) s

/-- Outcome of the bare `axios(originalRequest)` replay a queued subscriber
issues when its callback runs (part_003 line 71). -/
inductive ReplayResult
  | succeeded
  | failed
deriving DecidableEq, Repr

/-- What a queued waiter observes when resumed. -/
structure WaiterOutcome where
  headerUpdated : Bool
  result : ReplayResult
deriving DecidableEq, Repr

/-- The subscriber callback registered for a queued 401 (part_003 lines
66-73): the Authorization header is rewritten only when the delivered token
is truthy and headers exist, and the promise is then resolved with the
outcome of the replay of the original request, whatever the token was. -/
def waiterResume (token : String) (hasHeaders : Bool) (replay : ReplayResult) :
    WaiterOutcome :=
  { headerUpdated := (token ≠ "") && hasHeaders, result := replay }

/-! ## Preview fetch watcher (TransferModal.vue lines 123-162) -/

/-- The payload of a transfer-preview response. -/
structure PreviewData where
  payload : Nat
  currencyExchangeApplied : Bool
deriving DecidableEq, Repr

/-- The component state the preview watcher touches, plus the multiset of
in-flight preview requests (by issue id, in issue order) and a fresh-id
counter. -/
structure PState where
  transferPreview : Option PreviewData
  showExchangeInfo : Bool
  isLoadingPreview : Bool
  pending : List Nat
  nextId : Nat
deriving DecidableEq, Repr

/-- Initial preview state of a freshly opened modal. -/
def initPState : PState :=
  { transferPreview := none, showExchangeInfo := false, isLoadingPreview := false
    pending := [], nextId := 0 }

/-- Events of the preview workflow: a watcher firing on an edit of
fromAccount, toAccount or amount (with the current validity of the form),
and the arrival of the response of a previously issued preview request. -/
inductive PEvent
  | edit (formValid : Bool)
  | respond (id : Nat) (data : PreviewData)
  | fail (id : Nat)
deriving DecidableEq, Repr

/-- One step of the preview workflow. An edit with a valid form starts
getTransferPreview: isLoadingPreview is raised and a new request is issued;
an edit with an invalid form clears the preview. A response for an in-flight
request is applied unconditionally — transferPreview and showExchangeInfo
are overwritten with its data no matter whether a younger request is still
in flight (lines 142-143 carry no request identity, no cancellation and no
generation counter). A failed response clears the preview (lines 145-148). -/
def pStep (s : PState) (e : PEvent) : PState :=
  match e with
  | .edit formValid =>
    if formValid then
      { s with isLoadingPreview := true, pending := s.pending ++ [s.nextId]
               nextId := s.nextId + 1 }
    else { s with transferPreview := none, showExchangeInfo := false }
  | .respond id data =>
    if id ∈ s.pending then
      { s with transferPreview := some data
               showExchangeInfo := data.currencyExchangeApplied
               isLoadingPreview := false
               pending := s.pending.erase id }
    else s
  | .fail id =>
    if id ∈ s.pending then
      { s with transferPreview := none, showExchangeInfo := false
               isLoadingPreview := false, pending := s.pending.erase id }
    else s

/-- A run of the preview workflow over a sequence of events. -/
def pRun (s : PState) (es : List PEvent) : PState :=
  es.foldl pStep s

/-! ## Theorems -/

/-- Claim C7: refreshToken() returns false immediately when no refresh token
is held; otherwise it delegates to validateToken() and returns true iff
validateToken() returned a user object, and it returns false, never throws,
when validateToken() throws. -/
theorem refreshToken_spec (s : AuthState) (v : ValidateOutcome) :
    (truthyStr s.refreshTok = false → refreshTokenAction s v = false)
  ∧ (truthyStr s.refreshTok = true →
      (refreshTokenAction s v = true ↔ ∃ u, v = .returned (some u)))
  ∧ refreshTokenAction s .threw = false := by
  refine ⟨?_, ?_, ?_⟩
  · intro h
    simp [refreshTokenAction, h]
  · intro h
    cases v with
    | threw => simp [refreshTokenAction, h]
    | returned u =>
      cases u with
      | none => simp [refreshTokenAction, h]
      | some x => simp [refreshTokenAction, h]
  · by_cases h : truthyStr s.refreshTok <;> simp [refreshTokenAction, h]

/-- Witness for C7 at a concrete state: a held refresh token and a user
object returned by validateToken() give true. -/
theorem refreshToken_spec_witness :
    refreshTokenAction ⟨some "t", some "r", none, some 1, true⟩
      (.returned (some "u")) = true :=
  ((refreshToken_spec ⟨some "t", some "r", none, some 1, true⟩
      (.returned (some "u"))).2.1 (by decide)).mpr ⟨"u", rfl⟩

/-- Claim C6 counterexample: a state holding the empty string as its access
token with a future expiry. The access token is non-null and the stored
expiry (1000) is strictly greater than the current time (0), yet isLoggedIn
is false, because the source tests JS truthiness (`!this.token`), not
non-nullness. -/
theorem isLoggedIn_nonnull_counterexample :
    ¬ (isLoggedIn ⟨some "", none, none, some 1000, true⟩ 0 = true ↔
       ((⟨some "", none, none, some 1000, true⟩ : AuthState).token ≠ none ∧
        (1000 : Int) > 0)) := by
  decide

/-- Claim C6 (amended): persisting a session with setSession and rehydrating
a fresh store instance from that storage reproduces isLoggedIn identically
at every observation time; and isLoggedIn holds iff the access token is
non-null and non-empty and the stored expiry is non-null, nonzero and
strictly greater than the current time — in particular a session whose
expiry equals now exactly is not logged in. -/
theorem session_roundtrip_isLoggedIn (auth : AuthResult) (now obs : Int)
    (s : AuthState) :
    (isLoggedIn (rehydrate (setSession auth now).2) obs
      = isLoggedIn (setSession auth now).1 obs)
  ∧ (isLoggedIn s obs = true ↔
      (truthyStr s.token = true ∧ truthyNum s.expiresAt = true ∧
        s.expiresAt.getD 0 > obs))
  ∧ (s.expiresAt = some obs → isLoggedIn s obs = false) := by
  refine ⟨?_, ?_, ?_⟩
  · by_cases htok : auth.token = "" <;>
      simp [setSession, rehydrate, isLoggedIn, jsOrNull, truthyStr, truthyNum,
        htok]
  · unfold isLoggedIn
    split_ifs with hcond
    · simp only [Bool.false_eq_true, false_iff]
      rintro ⟨ht, he, _⟩
      rcases hcond with h | h <;> simp_all
    · push_neg at hcond
      simp [hcond.1, hcond.2]
  · intro h
    simp [isLoggedIn, h]

/-- Witness for C6 (amended) at a concrete state: expiry exactly equal to
the observation time is not logged in. -/
theorem session_roundtrip_isLoggedIn_witness :
    isLoggedIn ⟨some "t", none, none, some 10, false⟩ 10 = false :=
  (session_roundtrip_isLoggedIn ⟨"t", "r", "u", 1⟩ 0 10
    ⟨some "t", none, none, some 10, false⟩).2.2 rfl

/-- Claim C9: when the destination account number equals the source account
number (and is non-empty, as every account number is), validateToAccount
surfaces the same-account validation error at once and the network lookup of
the destination is not issued. -/
theorem sameAccount_no_lookup (f : Account) (available : List Account)
    (byEmployee : Bool) (lookup : LookupResult) (h : f.accountNumber ≠ "") :
    validateToAccount (some f) f.accountNumber available byEmployee lookup
      = (some "Cannot transfer to the same account", false) := by
  simp [validateToAccount, h]

/-- Witness for C9 at a concrete account. -/
theorem sameAccount_no_lookup_witness :
    validateToAccount (some ⟨"NL01", "main", 100, "EUR", 50, 200, 0⟩) "NL01"
      [] false .ok = (some "Cannot transfer to the same account", false) :=
  sameAccount_no_lookup ⟨"NL01", "main", 100, "EUR", 50, 200, 0⟩ [] false .ok
    (by decide)

/-- Claim C10: a null amount, a zero amount or a missing source account make
validateAmount clear the error and return without a message; the
positivity message is surfaced only for strictly negative amounts; and in
each of those three cases isFormValid is false, so submission stays
blocked. -/
theorem validateAmount_falsy_blocked (fromAccount : Option Account)
    (toAccount : String) (amount : Option ℚ) (aErr : Option AmountError)
    (tErr : Option String) :
    (amount = none ∨ amount = some 0 ∨ fromAccount = none →
      validateAmount fromAccount amount = none)
  ∧ (validateAmount fromAccount amount = some .mustBePositive →
      ∃ a, amount = some a ∧ a < 0)
  ∧ (amount = none ∨ amount = some 0 ∨ fromAccount = none →
      isFormValid fromAccount toAccount amount aErr tErr = false) := by
  refine ⟨?_, ?_, ?_⟩
  · rintro (rfl | rfl | rfl)
    · cases fromAccount <;> simp [validateAmount]
    · cases fromAccount <;> simp [validateAmount]
    · cases amount <;> simp [validateAmount]
  · cases amount with
    | none => cases fromAccount <;> simp [validateAmount]
    | some a =>
      cases fromAccount with
      | none => simp [validateAmount]
      | some acc =>
        simp only [validateAmount]
        split_ifs with h0 hneg <;> intro h <;> simp_all
        exact lt_of_le_of_ne hneg h0
  · rintro (rfl | rfl | rfl)
    · simp [isFormValid, truthyAmt]
    · simp [isFormValid, truthyAmt]
    · simp [isFormValid]

/-- Witness for C10 at concrete inputs: no source account blocks the form. -/
theorem validateAmount_falsy_blocked_witness :
    isFormValid none "X" (some 5) none none = false :=
  (validateAmount_falsy_blocked none "X" (some 5) none none).2.2
    (Or.inr (Or.inr rfl))

/-- Claim C5: for a selected source account with balance B, single limit S,
daily limit D and daily used U, and a strictly positive amount a, the amount
validation surfaces an error iff a > min(B, S, D - U) (boundary-exact: an
amount equal to the bound passes), the first violated rule in the order
positivity, balance, single limit, daily limit is the one surfaced, and
passing all rules clears the error. -/
theorem validateAmount_spec (acc : Account) (a : ℚ) (ha : 0 < a) :
    ((validateAmount (some acc) (some a)).isSome = true ↔
      min acc.balance (min acc.singleTransferLimit
        (acc.dailyTransferLimit - acc.transferUsedToday)) < a)
  ∧ (acc.balance < a →
      validateAmount (some acc) (some a) = some .insufficientFunds)
  ∧ (a ≤ acc.balance → acc.singleTransferLimit < a →
      validateAmount (some acc) (some a) = some .exceedsSingleLimit)
  ∧ (a ≤ acc.balance → a ≤ acc.singleTransferLimit →
      acc.dailyTransferLimit < acc.transferUsedToday + a →
      validateAmount (some acc) (some a) = some .exceedsDailyLimit)
  ∧ (a ≤ acc.balance → a ≤ acc.singleTransferLimit →
      acc.transferUsedToday + a ≤ acc.dailyTransferLimit →
      validateAmount (some acc) (some a) = none) := by
  have h0 : ¬ a = 0 := ne_of_gt ha
  have h1 : ¬ a ≤ 0 := not_le.mpr ha
  refine ⟨?_, ?_, ?_, ?_, ?_⟩
  · simp only [validateAmount, if_neg h0, if_neg h1]
    split_ifs with hb hs hd
    · simp only [Option.isSome_some, true_iff]
      rw [min_lt_iff]
      exact Or.inl hb
    · simp only [Option.isSome_some, true_iff]
      rw [min_lt_iff, min_lt_iff]
      exact Or.inr (Or.inl hs)
    · simp only [Option.isSome_some, true_iff]
      rw [min_lt_iff, min_lt_iff]
      exact Or.inr (Or.inr (by linarith))
    · push_neg at hb hs hd
      simp only [Option.isSome_none, Bool.false_eq_true, false_iff,
        min_lt_iff, not_or, not_lt]
      exact ⟨hb, hs, by linarith⟩
  · intro hb
    simp [validateAmount, if_neg h0, if_neg h1, if_pos hb]
  · intro hb hs
    simp [validateAmount, if_neg h0, if_neg h1, if_neg (not_lt.mpr hb),
      if_pos hs]
  · intro hb hs hd
    simp [validateAmount, if_neg h0, if_neg h1, if_neg (not_lt.mpr hb),
      if_neg (not_lt.mpr hs), if_pos hd]
  · intro hb hs hd
    simp [validateAmount, if_neg h0, if_neg h1, if_neg (not_lt.mpr hb),
      if_neg (not_lt.mpr hs), if_neg (not_lt.mpr hd)]

/-- Witness for C5 at a concrete account: balance 100, single limit 50,
daily limit 200 with 180 already used. Amount 30 exceeds the remaining
daily headroom of 20 and is rejected with the daily-limit message; amount
20 sits exactly on the bound and passes. -/
theorem validateAmount_spec_witness :
    validateAmount (some ⟨"NL01", "main", 100, "EUR", 50, 200, 180⟩) (some 30)
      = some .exceedsDailyLimit
  ∧ validateAmount (some ⟨"NL01", "main", 100, "EUR", 50, 200, 180⟩) (some 20)
      = none :=
  ⟨(validateAmount_spec ⟨"NL01", "main", 100, "EUR", 50, 200, 180⟩ 30
      (by norm_num)).2.2.2.1 (by norm_num) (by norm_num) (by norm_num),
   (validateAmount_spec ⟨"NL01", "main", 100, "EUR", 50, 200, 180⟩ 20
      (by norm_num)).2.2.2.2 (by norm_num) (by norm_num) (by norm_num)⟩

/-- Helper: a Map.set binding is what Map.get returns for its key. -/
theorem cacheGet_cacheSet (c : RateCache) (k : String) (v : CacheEntry) :
    cacheGet (cacheSet c k v) k = some v := by
  simp [cacheGet, cacheSet]

/-- Helper: when a to-EUR lookup with a successful fetch issued the network
call, its resulting cache binds the pair key to the fetched rate stamped with
the lookup time. -/
theorem getToEur_fetched_cache (c : String) (now : Int) (r : ℚ)
    (cache : RateCache) (hc : ¬ c = "EUR")
    (hn : (getExchangeRateToEur c now (.ok r) cache).networkCalled = true) :
    (getExchangeRateToEur c now (.ok r) cache).cache
      = cacheSet cache (c ++ "_EUR") ⟨r, now⟩ := by
  simp only [getExchangeRateToEur, if_neg hc] at hn ⊢
  cases hcg : cacheGet cache (c ++ "_EUR") with
  | none => simp [hcg, fetchRate]
  | some e =>
    simp only [hcg] at hn ⊢
    split_ifs at hn ⊢ with hfresh
    simp [fetchRate]

/-- Helper: the from-EUR mirror of getToEur_fetched_cache. -/
theorem getFromEur_fetched_cache (c : String) (now : Int) (r : ℚ)
    (cache : RateCache) (hc : ¬ c = "EUR")
    (hn : (getExchangeRateFromEur c now (.ok r) cache).networkCalled = true) :
    (getExchangeRateFromEur c now (.ok r) cache).cache
      = cacheSet cache ("EUR_" ++ c) ⟨r, now⟩ := by
  simp only [getExchangeRateFromEur, if_neg hc] at hn ⊢
  cases hcg : cacheGet cache ("EUR_" ++ c) with
  | none => simp [hcg, fetchRate]
  | some e =>
    simp only [hcg] at hn ⊢
    split_ifs at hn ⊢ with hfresh
    simp [fetchRate]

/-- Claim C8: both rate getters return 1.0 for EUR with no network call; for
any other currency, a lookup strictly less than CACHE_DURATION (5 minutes)
after a successful network fetch of the same ordered pair returns the cached
rate without a network call, while a lookup at or beyond CACHE_DURATION
re-issues the fetch and stores the new rate with the current timestamp. -/
theorem rateCache_spec :
    (∀ (now : Int) (fetch : FetchResult) (cache : RateCache),
      getExchangeRateToEur "EUR" now fetch cache = ⟨1, cache, false⟩)
  ∧ (∀ (now : Int) (fetch : FetchResult) (cache : RateCache),
      getExchangeRateFromEur "EUR" now fetch cache = ⟨1, cache, false⟩)
  ∧ (∀ (c : String) (cache : RateCache) (now : Int) (r : ℚ) (now2 : Int)
      (fetch2 : FetchResult), ¬ c = "EUR" →
      (getExchangeRateToEur c now (.ok r) cache).networkCalled = true →
      ((now2 - now < CACHE_DURATION →
        getExchangeRateToEur c now2 fetch2
            (getExchangeRateToEur c now (.ok r) cache).cache
          = ⟨r, (getExchangeRateToEur c now (.ok r) cache).cache, false⟩)
      ∧ (CACHE_DURATION ≤ now2 - now → ∀ r2 : ℚ,
        getExchangeRateToEur c now2 (.ok r2)
            (getExchangeRateToEur c now (.ok r) cache).cache
          = ⟨r2, cacheSet (getExchangeRateToEur c now (.ok r) cache).cache
              (c ++ "_EUR") ⟨r2, now2⟩, true⟩)))
  ∧ (∀ (c : String) (cache : RateCache) (now : Int) (r : ℚ) (now2 : Int)
      (fetch2 : FetchResult), ¬ c = "EUR" →
      (getExchangeRateFromEur c now (.ok r) cache).networkCalled = true →
      ((now2 - now < CACHE_DURATION →
        getExchangeRateFromEur c now2 fetch2
            (getExchangeRateFromEur c now (.ok r) cache).cache
          = ⟨r, (getExchangeRateFromEur c now (.ok r) cache).cache, false⟩)
      ∧ (CACHE_DURATION ≤ now2 - now → ∀ r2 : ℚ,
        getExchangeRateFromEur c now2 (.ok r2)
            (getExchangeRateFromEur c now (.ok r) cache).cache
          = ⟨r2, cacheSet (getExchangeRateFromEur c now (.ok r) cache).cache
              ("EUR_" ++ c) ⟨r2, now2⟩, true⟩))) := by
  refine ⟨?_, ?_, ?_, ?_⟩
  · intro now fetch cache
    simp [getExchangeRateToEur]
  · intro now fetch cache
    simp [getExchangeRateFromEur]
  · intro c cache now r now2 fetch2 hc hn
    have hcache := getToEur_fetched_cache c now r cache hc hn
    rw [hcache]
    constructor
    · intro hfresh
      simp only [getExchangeRateToEur, if_neg hc, cacheGet_cacheSet]
      rw [if_pos hfresh]
    · intro hstale r2
      simp only [getExchangeRateToEur, if_neg hc, cacheGet_cacheSet]
      rw [if_neg (not_lt.mpr hstale), fetchRate]
  · intro c cache now r now2 fetch2 hc hn
    have hcache := getFromEur_fetched_cache c now r cache hc hn
    rw [hcache]
    constructor
    · intro hfresh
      simp only [getExchangeRateFromEur, if_neg hc, cacheGet_cacheSet]
      rw [if_pos hfresh]
    · intro hstale r2
      simp only [getExchangeRateFromEur, if_neg hc, cacheGet_cacheSet]
      rw [if_neg (not_lt.mpr hstale), fetchRate]

/-- Witness for C8: a USD fetch cached at t=1000 is served from the cache at
t=300999 with no network call, and re-fetched at t=301000 (exactly 5
minutes later). -/
theorem rateCache_spec_witness :
    (getExchangeRateToEur "USD" 300999 .err
        (getExchangeRateToEur "USD" 1000 (.ok (9/10)) []).cache
      = ⟨9/10, (getExchangeRateToEur "USD" 1000 (.ok (9/10)) []).cache, false⟩)
  ∧ (getExchangeRateToEur "USD" 301000 (.ok (8/10))
        (getExchangeRateToEur "USD" 1000 (.ok (9/10)) []).cache
      = ⟨8/10, cacheSet (getExchangeRateToEur "USD" 1000 (.ok (9/10)) []).cache
          ("USD" ++ "_EUR") ⟨8/10, 301000⟩, true⟩) :=
  ⟨(rateCache_spec.2.2.1 "USD" [] 1000 (9/10) 300999 .err (by decide)
      (by decide)).1 (by decide),
   (rateCache_spec.2.2.1 "USD" [] 1000 (9/10) 301000 .err (by decide)
      (by decide)).2 (by decide) (8/10)⟩

/-- Claim C2: a 401 whose request is already marked retried never enters the
refresh branch: the module state is untouched (no refresh started, no waiter
queued, no delivery, no reset) and the error propagates to the caller as a
terminal rejection. -/
theorem retried_401_terminal (s : GState) (reqId : Nat) :
    handleError s reqId true 401 true = (s, .rejectedOriginal) := by
  simp [handleError]

/-- Helper: a burst of non-retried 401 responses arriving while a refresh is
in flight only appends the requests, in arrival order, to the subscriber
queue. -/
theorem enqueueAll_refreshing (s : GState) (reqs : List Nat)
    (h : s.isRefreshing = true) :
    enqueueAll s reqs
      = { s with refreshSubscribers := s.refreshSubscribers ++ reqs } := by
  induction reqs generalizing s with
  | nil => simp [enqueueAll]
  | cons r rs ih =>
    have hstep : (handleError s r true 401 false).1 = subscribeTokenRefresh r s := by
      simp [handleError, h]
    have hrun : enqueueAll s (r :: rs)
        = enqueueAll (subscribeTokenRefresh r s) rs := by
      simp [enqueueAll, hstep]
    rw [hrun, ih (subscribeTokenRefresh r s) (by exact h)]
    have happ : (subscribeTokenRefresh r s).refreshSubscribers ++ rs
        = s.refreshSubscribers ++ (r :: rs) := by
      simp [subscribeTokenRefresh]
    simp [subscribeTokenRefresh, happ]

/-- Claim C1: one refresh cycle of the gateway. The first non-retried 401
starts the single refresh of the cycle; every concurrent non-retried 401
arriving while the refresh is in flight is queued in FIFO order and starts
no further refresh; when the refresh settles, every registered waiter is
invoked exactly once, in registration order, all with the same outcome (the
new token on success, the empty string on failure), the waiter list is reset
to empty exactly once, and a subsequent cycle delivers only to its own
registrations, so no waiter can receive a delivery from a later cycle. -/
theorem refresh_cycle_spec (s0 s1 s2 s3 : GState) (r0 r1 : Nat)
    (reqs reqs2 : List Nat) (o o2 : RefreshOutcome)
    (h0 : s0.isRefreshing = false)
    (h1 : s1 = (handleError s0 r0 true 401 false).1)
    (h2 : s2 = enqueueAll s1 reqs)
    (h3 : s3 = (settleRefresh s2 o).1) :
    (handleError s0 r0 true 401 false).2 = .startedRefresh
  ∧ s1.refreshStarts = s0.refreshStarts + 1
  ∧ s1.isRefreshing = true
  ∧ s1.refreshSubscribers = s0.refreshSubscribers
  ∧ s2.refreshStarts = s1.refreshStarts
  ∧ s2.refreshSubscribers = s0.refreshSubscribers ++ reqs
  ∧ (∀ q, (handleError s2 q true 401 false).2 = .queued)
  ∧ s3.deliveries
      = s2.deliveries ++ s2.refreshSubscribers.map (fun w => (w, settleToken o))
  ∧ s3.refreshSubscribers = []
  ∧ s3.resets = s2.resets + 1
  ∧ s3.isRefreshing = false
  ∧ (settleRefresh (enqueueAll ((handleError s3 r1 true 401 false).1) reqs2)
        o2).1.deliveries
      = s3.deliveries ++ reqs2.map (fun w => (w, settleToken o2)) := by
  have hs1 : s1 = { s0 with isRefreshing := true
                            refreshStarts := s0.refreshStarts + 1 } := by
    rw [h1]; simp [handleError, h0]
  have hs1r : s1.isRefreshing = true := by rw [hs1]
  have hs2 : s2 = { s1 with refreshSubscribers := s1.refreshSubscribers ++ reqs } := by
    rw [h2, enqueueAll_refreshing s1 reqs hs1r]
  have hs2r : s2.isRefreshing = true := by rw [hs2]; exact hs1r
  have hsettle : ∀ (t : GState) (oc : RefreshOutcome),
      ((settleRefresh t oc).1.deliveries
          = t.deliveries ++ t.refreshSubscribers.map (fun w => (w, settleToken oc)))
      ∧ (settleRefresh t oc).1.refreshSubscribers = []
      ∧ (settleRefresh t oc).1.resets = t.resets + 1
      ∧ (settleRefresh t oc).1.isRefreshing = false := by
    intro t oc
    cases oc <;> simp [settleRefresh, onTokenRefreshed, onRefreshError, settleToken]
  refine ⟨?_, ?_, ?_, ?_, ?_, ?_, ?_, ?_, ?_, ?_, ?_, ?_⟩
  · simp [handleError, h0]
  · rw [hs1]
  · exact hs1r
  · rw [hs1]
  · rw [hs2]
  · rw [hs2, hs1]
  · intro q
    simp [handleError, hs2r]
  · rw [h3]; exact (hsettle s2 o).1
  · rw [h3]; exact (hsettle s2 o).2.1
  · rw [h3]; exact (hsettle s2 o).2.2.1
  · rw [h3]; exact (hsettle s2 o).2.2.2
  · have hs3r : s3.isRefreshing = false := by rw [h3]; exact (hsettle s2 o).2.2.2
    have hs3subs : s3.refreshSubscribers = [] := by rw [h3]; exact (hsettle s2 o).2.1
    have hstart : (handleError s3 r1 true 401 false).1
        = { s3 with isRefreshing := true
                    refreshStarts := s3.refreshStarts + 1 } := by
      simp [handleError, hs3r]
    have henq : enqueueAll ((handleError s3 r1 true 401 false).1) reqs2
        = { s3 with isRefreshing := true
                    refreshStarts := s3.refreshStarts + 1
                    refreshSubscribers := reqs2 } := by
      rw [hstart, enqueueAll_refreshing _ reqs2 (by rfl)]
      simp [hs3subs]
    rw [henq]
    have := (hsettle { s3 with isRefreshing := true
                               refreshStarts := s3.refreshStarts + 1
                               refreshSubscribers := reqs2 } o2).1
    simpa using this

/-- Witness for C1: a cycle with initiator 1, waiters 5 and 6 queued during
the refresh, settling successfully with token T, then a second cycle with
waiter 9 failing: the first cycle delivers T to 5 then 6 and the second
delivers the empty string only to 9. -/
theorem refresh_cycle_spec_witness :
    (handleError initGState 1 true 401 false).2 = .startedRefresh
  ∧ ((settleRefresh (enqueueAll (handleError initGState 1 true 401 false).1
        [5, 6]) (.refreshedTrue (some "T"))).1).deliveries
      = (enqueueAll (handleError initGState 1 true 401 false).1
          [5, 6]).deliveries
        ++ (enqueueAll (handleError initGState 1 true 401 false).1
            [5, 6]).refreshSubscribers.map
              (fun w => (w, settleToken (.refreshedTrue (some "T")))) := by
  have h := refresh_cycle_spec initGState
    (handleError initGState 1 true 401 false).1
    (enqueueAll (handleError initGState 1 true 401 false).1 [5, 6])
    ((settleRefresh (enqueueAll (handleError initGState 1 true 401 false).1
        [5, 6]) (.refreshedTrue (some "T"))).1)
    1 2 [5, 6] [9] (.refreshedTrue (some "T")) .refreshedFalse
    rfl rfl rfl rfl
  exact ⟨h.1, h.2.2.2.2.2.2.2.1⟩

/-- Claim C3, evaluated at its failing input: the refresh settles with
refreshToken() returning false while waiter 7 is queued. The queue is
drained with the empty-string failure signal, isRefreshing is cleared,
logout runs and the original request is rejected — but the queued waiter is
not rejected: its callback leaves the Authorization header untouched and
resolves its promise with the outcome of the token-less replay of its
original request, which succeeds here. -/
theorem refreshFailure_waiter_not_rejected :
    settleRefresh { initGState with isRefreshing := true
                                    refreshSubscribers := [7]
                                    refreshStarts := 1 } .refreshedFalse
      = ({ isRefreshing := false, refreshSubscribers := [], refreshStarts := 1
           deliveries := [(7, "")], resets := 1, logouts := 1 }, .rejected)
  ∧ waiterResume "" true .succeeded
      = { headerUpdated := false, result := .succeeded } := by
  constructor <;> rfl

/-- Claim C4, evaluated at its failing input: two rapid valid edits issue
preview requests 0 and then 1; the younger response (request 1) resolves
first and is applied; the stale response (request 0) resolves later and
overwrites it, because getTransferPreview applies every response
unconditionally. The final preview is the older request's result. -/
theorem preview_stale_overwrite :
    (pRun initPState
      [.edit true, .edit true, .respond 1 ⟨1, true⟩,
       .respond 0 ⟨0, false⟩]).transferPreview = some ⟨0, false⟩
  ∧ (⟨0, false⟩ : PreviewData) ≠ (⟨1, true⟩ : PreviewData) := by
  constructor
  · rfl
  · decide
